import Mathlib

/-
Verification of the extraction pipeline of `packages/ios-dimensions`
(`scripts/generate.ts`): the data model, per-device attachment folding,
deduplicating accumulation, hash-keyed sorting, the staged task pipeline and
its error handling, embedded shallowly as executable Lean definitions.
-/

namespace IosDims

/-! ## Data model (`packages/ios-dimensions/src/types`, as consumed by
`scripts/generate.ts`)

Numbers in the attachment JSON are modelled as `Int`; the raw device tag is a
string (`device = extractedDevice as Device` is an unchecked cast at runtime,
so the runtime value is an arbitrary string). -/

/-- An inset frame `\x7btop, right, bottom, left\x7d` in points. -/
structure Frame where
  top : Int
  right : Int
  bottom : Int
  left : Int
deriving DecidableEq, Repr

/-- A size class along one axis (a small enumerated compactness scale). -/
inductive SizeClass where
  | compact
  | regular
deriving DecidableEq, Repr

/-- The pair of size classes for one orientation. -/
structure SizeClassPair where
  horizontal : SizeClass
  vertical : SizeClass
deriving DecidableEq, Repr

/-- A screen size in points. -/
structure Screen where
  width : Int
  height : Int
deriving DecidableEq, Repr

/-- The geometry payload for one orientation: screen size, the three inset
frames, and the size-class pair. -/
structure OrientedDimensions where
  screen : Screen
  safeArea : Frame
  layoutMargins : Frame
  readableContent : Frame
  sizeClass : SizeClassPair
deriving DecidableEq, Repr

/-- One decoded attachment file (`ExtractedDimensions` in the source): the
orientation tag plus device tag, scale, radius and the oriented payload.
The `orientation` field is a plain string: `getJSON` (load-json-file) performs
no schema validation, so at runtime the field holds whatever string the file
contained, despite the narrower TypeScript annotation. -/
structure ExtractedDimensions where
  orientation : String
  device : String
  scale : Int
  radius : Int
  dimensions : OrientedDimensions
deriving DecidableEq, Repr

/-- The per-device output record. The five local variables in the parsing task
are declared with definite-assignment assertions
(`let device!: Device` and so on) and receive no runtime initialisation, so
each slot is `undefined` until an attachment writes it; we model each slot as
an `Option`. The field order here is the key order of the object literal
`\x7b device, landscape, portrait, radius, scale \x7d` built in the source. -/
structure Dimensions where
  device : Option String
  landscape : Option OrientedDimensions
  portrait : Option OrientedDimensions
  radius : Option Int
  scale : Option Int
deriving DecidableEq, Repr

/-! ## JSON serialization (`JSON.stringify` on a `Dimensions` record)

The dedup test and the hash both consume `JSON.stringify(dimensions)`.
We model the produced JSON text as a `Json` tree: `str`/`num` are leaves, and
an object is a chain of `key : value` entries (`cons`) ending in `nil`, in the
exact order `JSON.stringify` emits them (the insertion order of the object
literal). Two `JSON.stringify` outputs are equal strings exactly when their
trees are equal, since the printer escapes string contents, so comparing trees
is faithful to comparing the strings. Keys whose value is `undefined` are
omitted by `JSON.stringify`, which `optEntry` models by dropping the entry. -/

inductive Json where
  | str (s : String)
  | num (n : Int)
  | nil
  | cons (key : String) (value : Json) (rest : Json)
deriving DecidableEq, Repr

/-- Serialize an entry whose value may be `undefined`: `JSON.stringify` omits
the key entirely in that case. -/
def optEntry (key : String) (value : Option Json) (rest : Json) : Json :=
  match value with
  | some v => Json.cons key v rest
  | none => rest

/-- The JSON text of one inset frame. -/
def serializeFrame (f : Frame) : Json :=
  Json.cons "top" (Json.num f.top)
    (Json.cons "right" (Json.num f.right)
      (Json.cons "bottom" (Json.num f.bottom)
        (Json.cons "left" (Json.num f.left) Json.nil)))

/-- The JSON text of a size class. -/
def serializeSizeClass (s : SizeClass) : Json :=
  match s with
  | SizeClass.compact => Json.str "compact"
  | SizeClass.regular => Json.str "regular"

/-- The JSON text of the oriented payload (key order is the attachment file's
field order with the destructured keys removed). -/
def serializeOriented (od : OrientedDimensions) : Json :=
  Json.cons "screen"
      (Json.cons "width" (Json.num od.screen.width)
        (Json.cons "height" (Json.num od.screen.height) Json.nil))
    (Json.cons "safeArea" (serializeFrame od.safeArea)
      (Json.cons "layoutMargins" (serializeFrame od.layoutMargins)
        (Json.cons "readableContent" (serializeFrame od.readableContent)
          (Json.cons "sizeClass"
              (Json.cons "horizontal" (serializeSizeClass od.sizeClass.horizontal)
                (Json.cons "vertical" (serializeSizeClass od.sizeClass.vertical)
                  Json.nil))
            Json.nil))))

/-- The JSON text `JSON.stringify` produces for a `Dimensions` record: keys in
the literal's insertion order, `undefined` slots omitted. -/
def serializeDimensions (d : Dimensions) : Json :=
  optEntry "device" (d.device.map Json.str)
    (optEntry "landscape" (d.landscape.map serializeOriented)
      (optEntry "portrait" (d.portrait.map serializeOriented)
        (optEntry "radius" (d.radius.map Json.num)
          (optEntry "scale" (d.scale.map Json.num) Json.nil))))

/-! ### Recovering a record from its serialization

`deserializeDimensions` is a parse-back function used only to prove that
`serializeDimensions` is injective (distinct records never stringify equal). -/

/-- Look up a key in an object chain. -/
def lookupKey (key : String) : Json → Option Json
  | Json.cons k v rest => if k = key then some v else lookupKey key rest
  | _ => none

/-- Read back a string leaf. -/
def getStr : Option Json → Option String
  | some (Json.str s) => some s
  | _ => none

/-- Read back a number leaf. -/
def getNum : Option Json → Option Int
  | some (Json.num n) => some n
  | _ => none

/-- Read back a size class. -/
def deserializeSizeClass : Json → Option SizeClass
  | Json.str "compact" => some SizeClass.compact
  | Json.str "regular" => some SizeClass.regular
  | _ => none

/-- Read back an inset frame. -/
def deserializeFrame : Json → Option Frame
  | Json.cons "top" (Json.num t)
      (Json.cons "right" (Json.num r)
        (Json.cons "bottom" (Json.num b)
          (Json.cons "left" (Json.num l) Json.nil))) => some ⟨t, r, b, l⟩
  | _ => none

/-- Read back an oriented payload. -/
def deserializeOriented : Json → Option OrientedDimensions
  | Json.cons "screen"
        (Json.cons "width" (Json.num w)
          (Json.cons "height" (Json.num h) Json.nil))
      (Json.cons "safeArea" sa
        (Json.cons "layoutMargins" lm
          (Json.cons "readableContent" rc
            (Json.cons "sizeClass"
                (Json.cons "horizontal" sh
                  (Json.cons "vertical" sv Json.nil))
              Json.nil)))) =>
    match deserializeFrame sa, deserializeFrame lm, deserializeFrame rc,
        deserializeSizeClass sh, deserializeSizeClass sv with
    | some sa, some lm, some rc, some h2, some v2 =>
      some ⟨⟨w, h⟩, sa, lm, rc, ⟨h2, v2⟩⟩
    | _, _, _, _, _ => none
  | _ => none

/-- Read back a `Dimensions` record from its serialization. -/
def deserializeDimensions (j : Json) : Dimensions :=
  { device := getStr (lookupKey "device" j)
    landscape := (lookupKey "landscape" j).bind deserializeOriented
    portrait := (lookupKey "portrait" j).bind deserializeOriented
    radius := getNum (lookupKey "radius" j)
    scale := getNum (lookupKey "scale" j) }

/-! ## HashKey

The sort key is `getHashCode(dimensions)` from `scripts/utils/get-hash-code`.
That utility file is not part of the provided sources. Modelled from the spec:
`HashKey` is a deterministic integer computed from the record's full
structural content (via its stable serialization), with no dependence on
memory addresses or randomized seeds; distinct records may rarely hash equal.
We model it as the classic 32-bit polynomial string hash of the record's JSON
text. -/

/-- Print a JSON tree back to its text. An object chain of two or more
entries prints its tail as an object and splices the tail's entries after a
comma (dropping the tail's opening brace). -/
def printJson : Json → String
  | Json.str s => "\"" ++ s ++ "\""
  | Json.num n => toString n
  | Json.nil => "\x7b\x7d"
  | Json.cons k v rest =>
    match rest with
    | Json.nil => "\x7b\"" ++ k ++ "\":" ++ printJson v ++ "\x7d"
    | r => "\x7b\"" ++ k ++ "\":" ++ printJson v ++ "," ++ (printJson r).drop 1

/-- The 32-bit polynomial hash of a string, folded left over its characters. -/
def hashString (s : String) : Int :=
  Int.ofNat (s.toList.foldl (fun h c => (h * 31 + c.toNat) % 4294967296) 0)

/-- Modelled from the spec: `getHashCode` (from `scripts/utils/get-hash-code`,
missing from the provided sources) — a deterministic, structure-derived
integer key for a `Dimensions` record. -/
def getHashCode (d : Dimensions) : Int :=
  hashString (printJson (serializeDimensions d))

/-! ## DeviceMeasurer: folding parsed attachments
(`Parsing extracted dimensions` task, lines 100-143)

The loop over attachments destructures each parsed file and overwrites
`device`, `scale` and `radius` unconditionally, then routes the remaining
payload: `if (orientation === "portrait") portrait = dimensions else
landscape = dimensions`. Note the bare `else`: any orientation other than
`"portrait"` — including invalid values — lands in the landscape slot. -/

/-- One iteration of the attachment loop. -/
def foldAttachment (s : Dimensions) (a : ExtractedDimensions) : Dimensions :=
  { device := some a.device
    landscape :=
      if a.orientation = "portrait" then s.landscape else some a.dimensions
    portrait :=
      if a.orientation = "portrait" then some a.dimensions else s.portrait
    radius := some a.radius
    scale := some a.scale }

/-- The record with every slot still `undefined`. -/
def emptyDimensions : Dimensions :=
  { device := none, landscape := none, portrait := none,
    radius := none, scale := none }

/-- Fold a device's parsed attachments into its `Dimensions` record, starting
from the uninitialised slots. -/
def measureDevice (atts : List ExtractedDimensions) : Dimensions :=
  atts.foldl foldAttachment emptyDimensions

/-! ## DatasetAssembler: accumulation with dedup, then sort
(`isUniqueDimensions` check, lines 136-142, and the `Sorting dimensions`
task, lines 164-171) -/

/-- Append a record to the accumulator unless a record with the same
`JSON.stringify` text is already present
(`!context.dimensions.map(JSON.stringify).includes(JSON.stringify(d))`). -/
def pushUnique (acc : List Dimensions) (d : Dimensions) : List Dimensions :=
  if serializeDimensions d ∈ acc.map serializeDimensions then acc
  else acc ++ [d]

/-- Accumulate a sequence of per-device records in order. -/
def accumulateDimensions (l : List Dimensions) : List Dimensions :=
  l.foldl pushUnique []

/-- The sort order used by `context.dimensions.sort((a, b) =>
getHashCode(a) - getHashCode(b))`: ascending hash. -/
def hashLe (a b : Dimensions) : Prop :=
  getHashCode a ≤ getHashCode b

instance : DecidableRel hashLe := fun a b => Int.decLe _ _

instance : IsTotal Dimensions hashLe :=
  ⟨fun a b => Int.le_total (getHashCode a) (getHashCode b)⟩

instance : IsTrans Dimensions hashLe :=
  ⟨fun _ _ _ h₁ h₂ => le_trans h₁ h₂⟩

/-- The sorting task. ECMAScript `Array.prototype.sort` with a consistent
comparator returns the unique stable sorting of its input, and stable
insertion sort (inserting each earlier element in front of the first
later-kept element it is `hashLe`-below) produces exactly that list. -/
def sortDimensions (l : List Dimensions) : List Dimensions :=
  List.insertionSort hashLe l

/-- The assembler over a sequence of per-device records: accumulate with
dedup, then sort by hash. -/
def assemble (l : List Dimensions) : List Dimensions :=
  sortDimensions (accumulateDimensions l)

/-- A record is complete when every slot received a value. -/
def completeDimensions (d : Dimensions) : Prop :=
  d.device.isSome = true ∧ d.landscape.isSome = true ∧
    d.portrait.isSome = true ∧ d.radius.isSome = true ∧ d.scale.isSome = true

instance (d : Dimensions) : Decidable (completeDimensions d) := by
  unfold completeDimensions; infer_instance

/-- The specification of first-seen-wins deduplication: keep each record's
first occurrence, drop every later structurally equal occurrence. -/
def firstOccurrences : List Dimensions → List Dimensions
  | [] => []
  | x :: xs =>
    x :: firstOccurrences (xs.filter (fun y => decide (y ≠ x)))
termination_by l => l.length
decreasing_by
  exact Nat.lt_succ_of_le (xs.length_filter_le _)

/-! ## Pipeline / TaskRunner (the `Listr` task graph)

Errors raised by tasks. `SilentError` and `isSilentError` live in
`scripts/utils/silent-error`, which is not among the provided sources.
Modelled from the spec: a silent error is a dedicated error variant marking
intentional early termination (for example an environment precondition
failure) that the top-level handler must not treat as an unexpected crash;
every other error is an ordinary failure carrying its diagnostic context. -/
inductive PipelineError where
  | silent (message : String)
  | failure (message : String)
deriving DecidableEq, Repr

/-- Modelled from the spec: `isSilentError` (from
`scripts/utils/silent-error`, missing from the provided sources) recognises
exactly the `SilentError` variant. -/
def isSilentError : PipelineError → Bool
  | PipelineError.silent _ => true
  | PipelineError.failure _ => false

/-- The host environment and external tools consulted by the `Verifying
requirements` task (`isMacOS()`, `withApp("Xcode")`,
`withCommand("xcodebuild")`, `withCommand("xcparse")`). -/
structure Requirements where
  macOS : Bool
  xcodeApp : Bool
  xcodebuild : Bool
  xcparse : Bool
deriving DecidableEq, Repr

/-- The `Verifying requirements` task: each unmet requirement throws a
`SilentError` with its remediation message, checked in source order. -/
def verifyRequirements (req : Requirements) : Except PipelineError Unit :=
  if !req.macOS then
    Except.error (PipelineError.silent "Xcode is only available on macOS.")
  else if !req.xcodeApp then
    Except.error (PipelineError.silent
      "Xcode is required. (https://developer.apple.com/xcode/)\")\x7d")
  else if !req.xcodebuild then
    Except.error (PipelineError.silent
      "Xcode Command Line Tools are required. (https://developer.apple.com/xcode/resources/)")
  else if !req.xcparse then
    Except.error (PipelineError.silent
      "xcparse is required. (https://github.com/ChargePoint/xcparse)")
  else Except.ok ()

/-- The externally determined outcome of one device's sub-sequence: whether
`xcodebuild build test` exited zero, whether the `.xcresult` bundle was found
and `xcparse` succeeded, whether every `getJSON` call on the extracted
attachment files succeeded, and the attachments obtained when it did. -/
structure DeviceOutcome where
  buildOk : Bool
  extractOk : Bool
  parseOk : Bool
  attachments : List ExtractedDimensions
deriving Repr

/-- One device's `Listr` sub-sequence (`Extracting dimensions` →
`Parsing extracted dimensions` → `Cleaning up extraction cache`), with the
scratch (derived-data) directory state threaded through. `xcodebuild` creates
the derived-data directory whether or not the build then fails. `Listr` runs
the three tasks in order with its default `exitOnError` behaviour: the first
task that throws aborts the list, skipping the tasks after it — including the
cleanup task, which is an ordinary third task, not a guaranteed-release
handler. Returns the scratch-directory state after the sub-sequence together
with the updated accumulator or the error. -/
def runDeviceSubsequence (o : DeviceOutcome) (acc : List Dimensions) :
    Bool × Except PipelineError (List Dimensions) :=
  if !o.buildOk then
    (true, Except.error (PipelineError.failure "xcodebuild failed"))
  else if !(o.extractOk && o.parseOk) then
    (true, Except.error (PipelineError.failure "parsing attachments failed"))
  else
    (false, Except.ok (pushUnique acc (measureDevice o.attachments)))

/-- The `Gathering dimensions` stage: fold every device's sub-sequence over
the shared `context.dimensions` accumulator; a failing device aborts the
remaining devices (`Listr` default `exitOnError`). -/
def gatherDimensions : List DeviceOutcome → List Dimensions →
    Except PipelineError (List Dimensions)
  | [], acc => Except.ok acc
  | o :: rest, acc =>
    match (runDeviceSubsequence o acc).2 with
    | Except.error e => Except.error e
    | Except.ok acc2 => gatherDimensions rest acc2

/-- A durable write performed by the `Generating files` task: either the
dataset artifact (`./src/data/dimensions.json`) or the platform descriptor
(`./src/data/logs.json`). -/
inductive Artifact where
  | dimensionsFile (data : List Dimensions)
  | logsFile (platform : String)
deriving DecidableEq, Repr

/-- The whole pipeline run: verify requirements, gather devices (their
sub-sequence outcomes and the discovered platform string are external
inputs), gather and accumulate dimensions, sort, then write both artifacts.
Returns the list of durable writes the run performed together with its
outcome; every stage before `Generating files` performs no write. -/
def runPipeline (req : Requirements) (devices : List DeviceOutcome)
    (platform : String) : List Artifact × Except PipelineError Unit :=
  match verifyRequirements req with
  | Except.error e => ([], Except.error e)
  | Except.ok () =>
    match gatherDimensions devices [] with
    | Except.error e => ([], Except.error e)
    | Except.ok dims =>
      ([Artifact.dimensionsFile (sortDimensions dims),
        Artifact.logsFile platform], Except.ok ())

/-- The top-level rejection handler
(`tasks.run().catch((error) => \x7b if (isSilentError(error)) return;
console.error(error) \x7d)`): a silent error produces no report; any other
error is reported in full (the reported value is the error itself, carrying
its diagnostic context). -/
def handleError (e : PipelineError) : Option PipelineError :=
  if isSilentError e then none else some e

/-! ## Serialization lemmas: `JSON.stringify` distinguishes distinct records -/

/-- Serializing an oriented payload loses no information. -/
theorem deserializeOriented_serializeOriented (od : OrientedDimensions) :
    deserializeOriented (serializeOriented od) = some od := by
  obtain ⟨⟨w, h⟩, sa, lm, rc, ⟨sh, sv⟩⟩ := od
  cases sh <;> cases sv <;> rfl

/-- Serializing a `Dimensions` record loses no information: the record can be
read back from its JSON text. -/
theorem deserializeDimensions_serializeDimensions (d : Dimensions) :
    deserializeDimensions (serializeDimensions d) = d := by
  obtain ⟨dev, land, port, rad, sc⟩ := d
  cases dev <;> cases land <;> cases port <;> cases rad <;> cases sc <;>
    simp [serializeDimensions, deserializeDimensions, optEntry, lookupKey,
      getStr, getNum, deserializeOriented_serializeOriented]

/-- Distinct records never produce the same `JSON.stringify` output: equality
of serializations is exactly structural (deep) equality. -/
theorem serializeDimensions_inj {a b : Dimensions}
    (h : serializeDimensions a = serializeDimensions b) : a = b := by
  have ha := deserializeDimensions_serializeDimensions a
  have hb := deserializeDimensions_serializeDimensions b
  rw [← ha, ← hb, h]

/-- The stringify-based membership test of `isUniqueDimensions` coincides
with structural membership. -/
theorem serialize_mem_iff (acc : List Dimensions) (d : Dimensions) :
    serializeDimensions d ∈ acc.map serializeDimensions ↔ d ∈ acc := by
  constructor
  · intro h
    obtain ⟨x, hx, hser⟩ := List.mem_map.mp h
    exact (serializeDimensions_inj hser) ▸ hx
  · intro h
    exact List.mem_map_of_mem _ h

/-- `pushUnique` appends exactly when no structurally equal record is already
accumulated. -/
theorem pushUnique_eq (acc : List Dimensions) (d : Dimensions) :
    pushUnique acc d = if d ∈ acc then acc else acc ++ [d] := by
  unfold pushUnique
  exact if_congr (serialize_mem_iff acc d) rfl rfl

/-! ## Accumulation is first-seen-wins deduplication -/

/-- Accumulating from any starting accumulator appends the first occurrences
of the not-yet-seen records, in order. -/
theorem foldl_pushUnique :
    ∀ (l : List Dimensions) (acc : List Dimensions),
      l.foldl pushUnique acc =
        acc ++ firstOccurrences (l.filter (fun x => decide (x ∉ acc)))
  | [], acc => by simp [firstOccurrences]
  | d :: rest, acc => by
    rw [List.foldl_cons, pushUnique_eq]
    by_cases hd : d ∈ acc
    · rw [if_pos hd, foldl_pushUnique rest acc]
      simp [List.filter_cons, hd]
    · rw [if_neg hd, foldl_pushUnique rest (acc ++ [d])]
      have hfilter :
          rest.filter (fun x => decide (x ∉ acc ++ [d])) =
            (rest.filter (fun x => decide (x ∉ acc))).filter
              (fun y => decide (y ≠ d)) := by
        rw [List.filter_filter]
        apply List.filter_congr
        intro x _
        simp [List.mem_append, not_or, and_comm]
      rw [List.append_assoc]
      congr 1
      have hcons : (d :: rest).filter (fun x => decide (x ∉ acc)) =
          d :: rest.filter (fun x => decide (x ∉ acc)) := by
        simp [List.filter_cons, hd]
      rw [hcons, hfilter]
      simp [firstOccurrences]

/-- The accumulated dataset is exactly the first occurrences of the input. -/
theorem accumulate_eq_firstOccurrences (l : List Dimensions) :
    accumulateDimensions l = firstOccurrences l := by
  unfold accumulateDimensions
  rw [foldl_pushUnique l []]
  simp only [List.nil_append]
  congr 1
  apply List.filter_eq_self.mpr
  intro x _
  simp

/-- Membership is preserved by first-occurrence deduplication. -/
theorem mem_firstOccurrences :
    ∀ (l : List Dimensions) (x : Dimensions),
      x ∈ firstOccurrences l ↔ x ∈ l
  | [], x => by simp [firstOccurrences]
  | a :: xs, x => by
    rw [firstOccurrences]
    by_cases hx : x = a
    · simp [hx]
    · simp only [List.mem_cons, hx, false_or]
      rw [mem_firstOccurrences (xs.filter (fun y => decide (y ≠ a))) x]
      simp [List.mem_filter, hx]
termination_by l x => l.length
decreasing_by
  exact Nat.lt_succ_of_le (List.length_filter_le _ _)

/-- First-occurrence deduplication produces a duplicate-free list. -/
theorem nodup_firstOccurrences :
    ∀ (l : List Dimensions), (firstOccurrences l).Nodup
  | [] => by simp [firstOccurrences]
  | a :: xs => by
    rw [firstOccurrences]
    refine List.nodup_cons.mpr ⟨?_, nodup_firstOccurrences _⟩
    intro hmem
    have := (mem_firstOccurrences _ _).mp hmem
    simp [List.mem_filter] at this
termination_by l => l.length
decreasing_by
  exact Nat.lt_succ_of_le (List.length_filter_le _ _)

/-- Membership in the accumulated dataset coincides with membership in the
input sequence. -/
theorem mem_accumulate (l : List Dimensions) (x : Dimensions) :
    x ∈ accumulateDimensions l ↔ x ∈ l := by
  rw [accumulate_eq_firstOccurrences]
  exact mem_firstOccurrences l x

/-- The accumulated dataset has no duplicates. -/
theorem nodup_accumulate (l : List Dimensions) :
    (accumulateDimensions l).Nodup := by
  rw [accumulate_eq_firstOccurrences]
  exact nodup_firstOccurrences l

/-- Sorting permutes the accumulated dataset. -/
theorem assemble_perm_accumulate (l : List Dimensions) :
    List.Perm (assemble l) (accumulateDimensions l) :=
  List.perm_insertionSort hashLe (accumulateDimensions l)

/-- Membership in the assembled dataset coincides with membership in the
input sequence. -/
theorem mem_assemble (l : List Dimensions) (x : Dimensions) :
    x ∈ assemble l ↔ x ∈ l := by
  rw [(assemble_perm_accumulate l).mem_iff]
  exact mem_accumulate l x

/-- The assembled dataset has no duplicates. -/
theorem nodup_assemble (l : List Dimensions) : (assemble l).Nodup :=
  (assemble_perm_accumulate l).symm.nodup (nodup_accumulate l)

/-! ## Determinism of the sorted output -/

/-- Two sorted lists that are permutations of one another are equal, provided
the order relation is antisymmetric on the elements actually present. This is
the analogue of `List.eq_of_perm_of_sorted` with antisymmetry required only
on the members of the lists, matching a sort key that may collide elsewhere. -/
theorem eq_of_perm_of_sorted_of_memAntisymm {α : Type} {r : α → α → Prop} :
    ∀ {l₁ l₂ : List α}, List.Perm l₁ l₂ → l₁.Sorted r → l₂.Sorted r →
      (∀ a ∈ l₁, ∀ b ∈ l₁, r a b → r b a → a = b) → l₁ = l₂
  | [], l₂, hp, _, _, _ => hp.nil_eq
  | a :: t₁, [], hp, _, _, _ => absurd hp.symm.nil_eq (by simp)
  | a :: t₁, b :: t₂, hp, hs₁, hs₂, hanti => by
    have hab : a = b := by
      rcases List.mem_cons.mp (hp.symm.subset (List.mem_cons_self b t₂)) with
        hba | hbt₁
      · exact hba.symm
      rcases List.mem_cons.mp (hp.subset (List.mem_cons_self a t₁)) with
        hba | hat₂
      · exact hba
      exact hanti a (List.mem_cons_self a t₁) b (List.mem_cons_of_mem a hbt₁)
        (List.rel_of_sorted_cons hs₁ b hbt₁)
        (List.rel_of_sorted_cons hs₂ a hat₂)
    subst hab
    have htail :=
      eq_of_perm_of_sorted_of_memAntisymm (hp.cons_inv) hs₁.of_cons hs₂.of_cons
        (fun x hx y hy => hanti x (List.mem_cons_of_mem a hx)
          y (List.mem_cons_of_mem a hy))
    rw [htail]

/-- The accumulated datasets of two permuted inputs are permutations of one
another. -/
theorem accumulate_perm_of_perm {l₁ l₂ : List Dimensions}
    (h : List.Perm l₁ l₂) :
    List.Perm (accumulateDimensions l₁) (accumulateDimensions l₂) := by
  refine (List.perm_ext_iff_of_nodup (nodup_accumulate l₁)
    (nodup_accumulate l₂)).mpr ?_
  intro x
  rw [mem_accumulate, mem_accumulate]
  exact h.mem_iff

/-- The assembled dataset is sorted by hash. -/
theorem sorted_assemble (l : List Dimensions) : (assemble l).Sorted hashLe :=
  List.sorted_insertionSort hashLe (accumulateDimensions l)

/-! ## Concrete records used as inputs below -/

/-- A portrait payload (an iPhone-14-like geometry). -/
def portraitSample : OrientedDimensions :=
  { screen := ⟨390, 844⟩
    safeArea := ⟨47, 0, 34, 0⟩
    layoutMargins := ⟨47, 16, 34, 16⟩
    readableContent := ⟨47, 16, 34, 16⟩
    sizeClass := ⟨SizeClass.compact, SizeClass.regular⟩ }

/-- The matching landscape payload. -/
def landscapeSample : OrientedDimensions :=
  { screen := ⟨844, 390⟩
    safeArea := ⟨0, 47, 21, 47⟩
    layoutMargins := ⟨0, 55, 21, 55⟩
    readableContent := ⟨0, 55, 21, 55⟩
    sizeClass := ⟨SizeClass.regular, SizeClass.compact⟩ }

/-- A complete iPhone-like record. -/
def phoneRecord : Dimensions :=
  { device := some "iPhone", landscape := some landscapeSample,
    portrait := some portraitSample, radius := some 47, scale := some 3 }

/-- An iPad landscape payload. -/
def padLandscapeSample : OrientedDimensions :=
  { screen := ⟨1194, 834⟩
    safeArea := ⟨24, 0, 20, 0⟩
    layoutMargins := ⟨24, 20, 20, 20⟩
    readableContent := ⟨24, 250, 20, 250⟩
    sizeClass := ⟨SizeClass.regular, SizeClass.regular⟩ }

/-- An iPad portrait payload. -/
def padPortraitSample : OrientedDimensions :=
  { screen := ⟨834, 1194⟩
    safeArea := ⟨24, 0, 20, 0⟩
    layoutMargins := ⟨24, 20, 20, 20⟩
    readableContent := ⟨24, 142, 20, 142⟩
    sizeClass := ⟨SizeClass.regular, SizeClass.regular⟩ }

/-- A complete iPad-like record. -/
def padRecord : Dimensions :=
  { device := some "iPad", landscape := some padLandscapeSample,
    portrait := some padPortraitSample, radius := some 18, scale := some 2 }

/-- A complete record whose device tag is `"Aa"`. Because the polynomial
string hash maps the two-character blocks `"Aa"` and `"BB"` to the same
value, this record and `collisionRecordB` are distinct yet hash equal. -/
def collisionRecordA : Dimensions :=
  { device := some "Aa", landscape := some landscapeSample,
    portrait := some portraitSample, radius := some 47, scale := some 3 }

/-- A complete record identical to `collisionRecordA` except for the device
tag `"BB"`: structurally different, but with the same hash. -/
def collisionRecordB : Dimensions :=
  { device := some "BB", landscape := some landscapeSample,
    portrait := some portraitSample, radius := some 47, scale := some 3 }

/-- A record with corner radius `0`. -/
def squareCornerRecord : Dimensions :=
  { device := some "iPad", landscape := some landscapeSample,
    portrait := some portraitSample, radius := some 0, scale := some 2 }

/-- The same record with corner radius `6`. -/
def roundedCornerRecord : Dimensions :=
  { device := some "iPad", landscape := some landscapeSample,
    portrait := some portraitSample, radius := some 6, scale := some 2 }

/-- A parsed portrait attachment. -/
def portraitAttachment : ExtractedDimensions :=
  { orientation := "portrait", device := "iPhone", scale := 3, radius := 47,
    dimensions := portraitSample }

/-- A parsed landscape attachment. -/
def landscapeAttachment : ExtractedDimensions :=
  { orientation := "landscape", device := "iPhone", scale := 3, radius := 47,
    dimensions := landscapeSample }

/-- An attachment whose orientation tag is not a member of
`\x7bportrait, landscape\x7d`. -/
def invalidOrientationAttachment : ExtractedDimensions :=
  { orientation := "upside-down", device := "iPhone", scale := 3, radius := 47,
    dimensions := portraitSample }

/-- A second attachment with different identity fields, used to observe which
attachment wins the `device`/`scale`/`radius` slots. -/
def conflictingAttachment : ExtractedDimensions :=
  { orientation := "landscape", device := "iPad", scale := 2, radius := 18,
    dimensions := landscapeSample }

/-- The record a portrait-only attachment set produces: the landscape slot
is still `undefined`. -/
def halfPhoneRecord : Dimensions :=
  { device := some "iPhone", landscape := none,
    portrait := some portraitSample, radius := some 47, scale := some 3 }

/-- The record an invalid-orientation attachment produces: the payload lands
in the landscape slot. -/
def invalidRoutedRecord : Dimensions :=
  { device := some "iPhone", landscape := some portraitSample,
    portrait := none, radius := some 47, scale := some 3 }

/-! ## Claims -/

/-- C1 (amended): for every multiset of complete per-device `Dimensions`
records in which no two distinct records share a hash value, running the
assembler (accumulate-dedup then sort by hash) on any two permutations of
that input produces the same output sequence. When two distinct records hash
equal, the stable sort preserves their accumulation order, so the output
additionally depends on discovery order (see the counterexample). -/
theorem assemble_perm_invariant (l₁ l₂ : List Dimensions)
    (hperm : List.Perm l₁ l₂)
    (hcomplete : ∀ d ∈ l₁, completeDimensions d)
    (hinj : ∀ a ∈ l₁, ∀ b ∈ l₁, getHashCode a = getHashCode b → a = b) :
    assemble l₁ = assemble l₂ := by
  apply eq_of_perm_of_sorted_of_memAntisymm
    ((assemble_perm_accumulate l₁).trans ((accumulate_perm_of_perm hperm).trans
      (assemble_perm_accumulate l₂).symm))
    (sorted_assemble l₁) (sorted_assemble l₂)
  intro a ha b hb hab hba
  exact hinj a ((mem_assemble l₁ a).mp ha) b ((mem_assemble l₁ b).mp hb)
    (le_antisymm hab hba)

set_option maxRecDepth 100000 in
/-- C1 witness: two complete records with distinct hashes assemble to the
same dataset from either discovery order. -/
theorem assemble_perm_invariant_witness :
    assemble [phoneRecord, padRecord] = assemble [padRecord, phoneRecord] :=
  assemble_perm_invariant [phoneRecord, padRecord] [padRecord, phoneRecord]
    (List.Perm.swap _ _ _) (by decide) (by decide)

set_option maxRecDepth 100000 in
/-- C1 counterexample: two distinct complete records with equal hash values,
for which the two discovery orders assemble to different output sequences —
the final order is not fully determined by the hash when hashes collide. -/
theorem assemble_hash_collision_counterexample :
    List.Perm [collisionRecordA, collisionRecordB]
      [collisionRecordB, collisionRecordA] ∧
    completeDimensions collisionRecordA ∧
    completeDimensions collisionRecordB ∧
    collisionRecordA ≠ collisionRecordB ∧
    getHashCode collisionRecordA = getHashCode collisionRecordB ∧
    assemble [collisionRecordA, collisionRecordB] ≠
      assemble [collisionRecordB, collisionRecordA] :=
  ⟨List.Perm.swap _ _ _, by decide, by decide, by decide, by decide, by decide⟩

/-- C2: a device whose attachment set contains only a portrait attachment
does not raise any detectable error — the parsing task succeeds, silently
assembles a record whose `landscape` slot is still `undefined`, and appends
that half-populated record to the dataset accumulator. -/
theorem portraitOnly_half_record_silent :
    measureDevice [portraitAttachment] = halfPhoneRecord ∧
    halfPhoneRecord.landscape = none ∧
    (runDeviceSubsequence ⟨true, true, true, [portraitAttachment]⟩ []).2 =
      Except.ok [halfPhoneRecord] :=
  ⟨rfl, rfl, rfl⟩

/-- C3 (amended): the scratch (derived-data) directory is removed exactly
when the build, extraction and parse steps of the device's sub-sequence all
succeed; when any step fails, `Listr` aborts the remaining tasks of the
sub-sequence, the cleanup task is skipped, and the directory persists. -/
theorem scratch_cleanup_iff_success (o : DeviceOutcome)
    (acc : List Dimensions) :
    (runDeviceSubsequence o acc).1 =
      !(o.buildOk && o.extractOk && o.parseOk) := by
  obtain ⟨b, e, p, atts⟩ := o
  cases b <;> cases e <;> cases p <;> rfl

/-- C3 counterexample: when the build step fails, the device's sub-sequence
completes with the scratch directory still present. -/
theorem scratch_left_on_build_failure :
    (runDeviceSubsequence ⟨false, true, true, [portraitAttachment]⟩ []).1 =
      true := rfl

/-- C4: the accumulator keeps exactly the first occurrence of each
structurally equal record — it equals the first-occurrences sequence, is
duplicate-free, preserves membership, and a record is appended if and only
if no structurally equal record was already accumulated. -/
theorem accumulate_first_seen_dedup (l : List Dimensions) :
    accumulateDimensions l = firstOccurrences l ∧
    (accumulateDimensions l).Nodup ∧
    (∀ x, x ∈ accumulateDimensions l ↔ x ∈ l) ∧
    (∀ acc d, pushUnique acc d = if d ∈ acc then acc else acc ++ [d]) :=
  ⟨accumulate_eq_firstOccurrences l, nodup_accumulate l,
    fun x => mem_accumulate l x, fun acc d => pushUnique_eq acc d⟩

/-- C5 (amended): an attachment whose orientation field is anything other
than `"portrait"` — including values outside `\x7bportrait, landscape\x7d` —
is accepted and its payload routed into the `landscape` slot; no failure is
raised for an unexpected orientation value. -/
theorem nonportrait_routed_to_landscape (s : Dimensions)
    (a : ExtractedDimensions) (h : a.orientation ≠ "portrait") :
    (foldAttachment s a).landscape = some a.dimensions ∧
    (foldAttachment s a).portrait = s.portrait := by
  simp [foldAttachment, h]

/-- C5 witness: the invalid orientation `"upside-down"` is routed into the
landscape slot. -/
theorem nonportrait_routed_to_landscape_witness :
    invalidOrientationAttachment.orientation ≠ "portrait" ∧
    ((foldAttachment emptyDimensions invalidOrientationAttachment).landscape =
        some invalidOrientationAttachment.dimensions ∧
      (foldAttachment emptyDimensions invalidOrientationAttachment).portrait =
        emptyDimensions.portrait) :=
  ⟨by decide, nonportrait_routed_to_landscape emptyDimensions
    invalidOrientationAttachment (by decide)⟩

/-- C5 counterexample: an attachment with orientation `"upside-down"` is not
rejected: the device's parsing task succeeds and produces a record whose
landscape slot holds the invalid attachment's payload. -/
theorem invalid_orientation_accepted :
    invalidOrientationAttachment.orientation ≠ "portrait" ∧
    invalidOrientationAttachment.orientation ≠ "landscape" ∧
    (runDeviceSubsequence ⟨true, true, true,
        [invalidOrientationAttachment]⟩ []).2 =
      Except.ok [invalidRoutedRecord] ∧
    invalidRoutedRecord.landscape = some portraitSample :=
  ⟨by decide, by decide, rfl, rfl⟩

/-- C6: when any requirement of the precondition check fails, the run
performs no durable write; and every run's writes are either empty or
exactly the dataset artifact followed by the platform descriptor, both
produced in the final persisting stage. -/
theorem writes_only_in_persist_stage (req : Requirements)
    (devices : List DeviceOutcome) (platform : String) :
    ((req.macOS = false ∨ req.xcodeApp = false ∨ req.xcodebuild = false ∨
        req.xcparse = false) →
      (runPipeline req devices platform).1 = []) ∧
    ((runPipeline req devices platform).1 = [] ∨
      ∃ dims, (runPipeline req devices platform).1 =
        [Artifact.dimensionsFile (sortDimensions dims),
          Artifact.logsFile platform]) := by
  constructor
  · intro h
    obtain ⟨m, xa, xb, xp⟩ := req
    cases m <;> cases xa <;> cases xb <;> cases xp <;>
      first
        | rfl
        | exact absurd h (by simp)
  · unfold runPipeline
    split
    · exact Or.inl rfl
    · split
      · exact Or.inl rfl
      · exact Or.inr ⟨_, rfl⟩

/-- C6 witness: a run on a host that is not macOS writes nothing. -/
theorem writes_only_in_persist_stage_witness :
    (runPipeline ⟨false, true, true, true⟩ [] "iOS 16.0").1 = [] :=
  (writes_only_in_persist_stage ⟨false, true, true, true⟩ [] "iOS 16.0").1
    (Or.inl rfl)

/-- C7: the top-level handler produces no report for a `SilentError` and
reports every other error together with its diagnostic context (the full
error value). -/
theorem silent_errors_unreported :
    (∀ message, handleError (PipelineError.silent message) = none) ∧
    (∀ e, isSilentError e = false → handleError e = some e) :=
  ⟨fun _ => rfl, fun _ h => by simp [handleError, h]⟩

/-- C7 witness: a silent precondition error is swallowed; an ordinary
failure is reported in full. -/
theorem silent_errors_unreported_witness :
    handleError (PipelineError.silent "Xcode is only available on macOS.") =
      none ∧
    isSilentError (PipelineError.failure "xcodebuild failed") = false ∧
    handleError (PipelineError.failure "xcodebuild failed") =
      some (PipelineError.failure "xcodebuild failed") :=
  ⟨silent_errors_unreported.1 _, rfl, silent_errors_unreported.2 _ rfl⟩

/-- Folding a non-empty attachment list leaves the last attachment's
identity fields in the record, from any starting state. -/
theorem foldl_attachments_last_fields :
    ∀ (l : List ExtractedDimensions) (h : l ≠ []) (s : Dimensions),
      (l.foldl foldAttachment s).device = some (l.getLast h).device ∧
      (l.foldl foldAttachment s).scale = some (l.getLast h).scale ∧
      (l.foldl foldAttachment s).radius = some (l.getLast h).radius
  | [], h, _ => absurd rfl h
  | [_], _, _ => ⟨rfl, rfl, rfl⟩
  | a :: b :: t, _, s => by
    have ih := foldl_attachments_last_fields (b :: t) (List.cons_ne_nil _ _)
      (foldAttachment s a)
    simpa [List.foldl_cons, List.getLast_cons] using ih

/-- C8: for every non-empty attachment list, the assembled record's
`device`, `scale` and `radius` fields come from the last attachment in
enumeration order, regardless of each attachment's orientation. -/
theorem last_attachment_wins (atts : List ExtractedDimensions)
    (h : atts ≠ []) :
    (measureDevice atts).device = some (atts.getLast h).device ∧
    (measureDevice atts).scale = some (atts.getLast h).scale ∧
    (measureDevice atts).radius = some (atts.getLast h).radius :=
  foldl_attachments_last_fields atts h emptyDimensions

/-- C8 witness: with a portrait attachment followed by a conflicting
landscape attachment, the later attachment's identity fields win. -/
theorem last_attachment_wins_witness :
    (measureDevice [portraitAttachment, conflictingAttachment]).device =
      some ([portraitAttachment, conflictingAttachment].getLast
        (List.cons_ne_nil _ _)).device ∧
    (measureDevice [portraitAttachment, conflictingAttachment]).scale =
      some ([portraitAttachment, conflictingAttachment].getLast
        (List.cons_ne_nil _ _)).scale ∧
    (measureDevice [portraitAttachment, conflictingAttachment]).radius =
      some ([portraitAttachment, conflictingAttachment].getLast
        (List.cons_ne_nil _ _)).radius :=
  last_attachment_wins [portraitAttachment, conflictingAttachment]
    (List.cons_ne_nil _ _)

/-- C9: two records that agree on every field except `radius` are distinct,
and whenever both occur in the input both occur in the assembled dataset —
the assembler never merges them. -/
theorem radius_pair_never_merged (a b : Dimensions) (l : List Dimensions)
    (hdevice : a.device = b.device) (hlandscape : a.landscape = b.landscape)
    (hportrait : a.portrait = b.portrait) (hscale : a.scale = b.scale)
    (hradius : a.radius ≠ b.radius) (ha : a ∈ l) (hb : b ∈ l) :
    a ∈ assemble l ∧ b ∈ assemble l ∧ a ≠ b := by
  refine ⟨(mem_assemble l a).mpr ha, (mem_assemble l b).mpr hb, ?_⟩
  intro h
  exact hradius (by rw [h])

/-- C9 witness: records with radius `0` and radius `6` both survive
assembly. -/
theorem radius_pair_never_merged_witness :
    squareCornerRecord ∈
      assemble [squareCornerRecord, roundedCornerRecord] ∧
    roundedCornerRecord ∈
      assemble [squareCornerRecord, roundedCornerRecord] ∧
    squareCornerRecord ≠ roundedCornerRecord :=
  radius_pair_never_merged squareCornerRecord roundedCornerRecord
    [squareCornerRecord, roundedCornerRecord] rfl rfl rfl rfl (by decide)
    (List.mem_cons_self _ _)
    (List.mem_cons_of_mem _ (List.mem_cons_self _ _))

/-- C10: a device with an empty attachment list does not fail — its
sub-sequence succeeds, assembling the all-`undefined` record and appending
it exactly when no equal record is already accumulated; since the assembled
dataset is duplicate-free, at most one such empty record ever appears. -/
theorem empty_attachments_single_record :
    measureDevice [] = emptyDimensions ∧
    (∀ acc, (runDeviceSubsequence ⟨true, true, true, []⟩ acc).2 =
      Except.ok (pushUnique acc emptyDimensions)) ∧
    (∀ acc, pushUnique acc emptyDimensions =
      if emptyDimensions ∈ acc then acc else acc ++ [emptyDimensions]) ∧
    (∀ l : List Dimensions, (assemble l).count emptyDimensions ≤ 1) := by
  refine ⟨rfl, fun acc => rfl, fun acc => pushUnique_eq acc _, fun l => ?_⟩
  exact List.nodup_iff_count_le_one.mp (nodup_assemble l) emptyDimensions

end IosDims
